import Mathlib

/-
  Verification of the go-clr interop core against its specification.

  The Go source is shallowly embedded: each Go function that the claims
  mention becomes a Lean definition over explicit data.  Native Windows
  procedures (OleAut32, ntdll, COM vtable slots) are external to the
  repository; where a Go wrapper's behaviour depends on their outcome the
  embedding takes that outcome as an explicit parameter (status word `hr`
  and dispatch code `errno`, both `Nat`), and where the wrapper relies on
  the documented contract of a native procedure (SafeArrayCreate,
  RtlCopyMemory) the contract is embedded as a pure function.
-/

namespace GoClr

/-- Outcome of a Go function: a normal value, an error return, or a
runtime fault (panic / access violation), which is not an error value. -/
inductive GoOutcome (α : Type) where
  | ok (val : α)
  | goError (e : String)
  | fault
deriving DecidableEq, Repr

/-- `SafeArrayBound` from safearray.go: element count and lower bound of
one dimension. -/
structure SafeArrayBound where
  cElements : Nat
  lLbound : Int
deriving DecidableEq, Repr

/-- `SafeArray` from safearray.go: the OAIdl.h descriptor.  The opaque
`pvData` pointer of the Go struct is modelled by carrying the backing
storage itself as `data` (one `Nat` per stored element). -/
structure SafeArray where
  cDims : Nat
  fFeatures : Nat
  cbElements : Nat
  cLocks : Nat
  data : List Nat
  rgsabound : SafeArrayBound
deriving DecidableEq, Repr

/-- VT_UI1, the variant type tag for unsigned single bytes. -/
def VT_UI1 : Nat := 17

/-- Per-element byte size fixed by the variant type tag; only VT_UI1 is
exercised by CreateSafeArray. -/
def elemSize (vt : Nat) : Nat :=
  if vt = VT_UI1 then 1 else 0

/-- Contract of the native OleAut32 SafeArrayCreate as CreateSafeArray
relies on it: allocates a descriptor with the requested dimension count,
the given bound, the element size fixed by `vt`, zero lock count, and
zero-initialised storage of `cElements` elements. -/
def SafeArrayCreateModel (vt : Nat) (cDims : Nat) (bound : SafeArrayBound) : SafeArray :=
  { cDims := cDims
    fFeatures := 0
    cbElements := elemSize vt
    cLocks := 0
    data := List.replicate bound.cElements 0
    rgsabound := bound }

/-- Contract of ntdll RtlCopyMemory restricted to this array's storage:
copy `n` elements from `src` over the front of `dest`. -/
def rtlCopyMemory (dest src : List Nat) (n : Nat) : List Nat :=
  src.take n ++ dest.drop n

/-- `CreateSafeArray` from safearray.go: builds a bound of
`len(rawBytes)` elements with lower bound 0, calls SafeArrayCreate with
VT_UI1 and one dimension, then copies the raw bytes into the storage via
RtlCopyMemory whose source argument is `&rawBytes[0]` — an expression the
Go runtime faults on when the slice is empty.  `createErrno` and
`copyErrno` are the dispatch codes reported by the two native calls and
`createRetNull` whether SafeArrayCreate returned a null descriptor. -/
def CreateSafeArray (createErrno : Nat) (createRetNull : Bool) (copyErrno : Nat)
    (rawBytes : List Nat) : GoOutcome SafeArray :=
  let safeArrayBounds : SafeArrayBound := { cElements := rawBytes.length, lLbound := 0 }
  if createErrno ≠ 0 then .goError "SafeArrayCreate dispatch error"
  else if createRetNull then .goError "the SafeArray was not created"
  else
    let safeArray := SafeArrayCreateModel VT_UI1 1 safeArrayBounds
    match rawBytes with
    | [] => .fault
    | _ :: _ =>
      if copyErrno ≠ 0 then .goError "RtlCopyMemory dispatch error"
      else .ok { safeArray with
                   data := rtlCopyMemory safeArray.data rawBytes rawBytes.length }

/-- Contract of the native SafeArrayGetDim: returns the descriptor's
dimension count. -/
def SafeArrayGetDimModel (psa : SafeArray) : Nat := psa.cDims

/-- Reading one element of a one-dimensional safe array at index `i`
(counted from the dimension's lower bound), per the storage layout. -/
def elementAt (psa : SafeArray) (i : Nat) : Nat := psa.data.getD i 0

/-- Iterating `elementAt` over the inclusive index range
`[lower, upper]` of the first dimension. -/
def readAll (psa : SafeArray) : List Nat :=
  (List.range psa.rgsabound.cElements).map (elementAt psa)

/-- Structured error values returned by the Go wrappers: a propagated
dispatch-layer code, a formatted non-zero HRESULT, the enumerator's
not-found error, or the dimension-mismatch error of ListAssemblies. -/
inductive GoErr where
  | dispatch (code : Nat)
  | hresult (code : Nat)
  | notFound (name : String)
  | dimension (d : Nat)
deriving DecidableEq, Repr

/-- `AppDomain.Load_3` from appdomain.go, as a function of the native
call's outcome: `hr` is the returned status word, `errno` the
dispatch-layer code.  A non-zero dispatch code is returned to the caller
unless it is exactly 1150; then a non-zero status becomes an HRESULT
error; otherwise success. -/
def Load_3 (hr errno : Nat) : Except GoErr Unit :=
  if errno ≠ 0 ∧ errno ≠ 1150 then .error (.dispatch errno)
  else if hr ≠ 0 then .error (.hresult hr)
  else .ok ()

/-- `ICORRuntimeHost.Start` from icorruntimehost.go, as a function of the
native call's outcome: a non-zero dispatch code is only passed to
debugPrint and never returned; only a non-zero status word produces an
error. -/
def Start (hr errno : Nat) : Except GoErr Unit :=
  if hr ≠ 0 then .error (.hresult hr) else .ok ()

/-- Go `strings.HasPrefix(strings.ToLower(name), strings.ToLower(pat))`
as used by `AppDomain.Load_2`, with a string viewed as its rune sequence
and `ToLower` folding each rune; `Char.toLower` case-folds the ASCII
letters, which is Go's folding on the ASCII names involved. -/
def nameMatches (assemblyString name : String) : Bool :=
  List.isPrefixOf (assemblyString.data.map Char.toLower) (name.data.map Char.toLower)

/-- The scan loop of `AppDomain.Load_2` from appdomain.go: each loaded
assembly is represented by the outcome of its `GetFullName` call; an
entry whose name read fails (`err == nil` guard) is skipped and the scan
continues; the first entry whose case-folded name starts with the
case-folded search string is returned by its position `i` in domain
order; an exhausted scan yields the not-found error. -/
def load_2_scan (assemblyString : String) (asmb : List (Except GoErr String))
    (i : Nat) : Except GoErr Nat :=
  match asmb with
  | [] => .error (.notFound assemblyString)
  | .ok name :: rest =>
    if nameMatches assemblyString name then .ok i
    else load_2_scan assemblyString rest (i + 1)
  | .error _ :: rest => load_2_scan assemblyString rest (i + 1)

/-- `AppDomain.Load_2` from appdomain.go: fetches the loaded-assembly
list via ListAssemblies (whose failure propagates) and runs the scan
loop from position 0. -/
def Load_2 (listResult : Except GoErr (List (Except GoErr String)))
    (assemblyString : String) : Except GoErr Nat :=
  match listResult with
  | .error e => .error e
  | .ok asmb => load_2_scan assemblyString asmb 0

/-- The element loop of the string-returning `AppDomain.ListAssemblies`
variant: each position in `[lbound, ubound]` is represented by the
combined outcome of its `SafeArrayGetElement` + `GetFullName` calls; the
first failing read is returned to the caller unchanged and ends the
loop, otherwise the names are collected in order. -/
def collectNames (entries : List (Except GoErr String)) : Except GoErr (List String) :=
  match entries with
  | [] => .ok []
  | .error e :: _ => .error e
  | .ok n :: rest =>
    match collectNames rest with
    | .error e => .error e
    | .ok l => .ok (n :: l)

/-- The string-returning `AppDomain.ListAssemblies` variant from
appdomain.go: after fetching the assembly array, a dimension count other
than 1 is an error, then the element loop runs over the bounds. -/
def ListAssembliesStr (dims : Nat) (entries : List (Except GoErr String)) :
    Except GoErr (List String) :=
  if dims ≠ 1 then .error (.dimension dims)
  else collectNames entries

/-- `IUnknown.AddRef` from iunknown.go.  The native COM AddRef increments
the object's shared reference count and returns the updated count as the
call's return value `ret` (documented in the source as `ULONG AddRef()`).
The wrapper then executes `count = *(*uint32)(unsafe.Pointer(ret))`,
reading the 32-bit value stored at the address numerically equal to that
count; `mem` gives the process's readable memory (`none` = unmapped, an
access-violation fault).  The result pairs the count value delivered to
the caller with the object's updated shared reference count. -/
def IUnknown_AddRef (mem : Nat → Option Nat) (refCount : Nat) (errno : Nat) :
    GoOutcome (Nat × Nat) :=
  let ret := refCount + 1
  if errno ≠ 0 then .goError "IUnknown AddRef dispatch error"
  else
    match mem ret with
    | none => .fault
    | some c => .ok (c, ret)

/-- `IUnknown.Release` from iunknown.go: the native COM Release
decrements the shared reference count and returns the updated count as
`ret`; the wrapper again dereferences `ret` as a pointer to a 32-bit
value instead of using it. -/
def IUnknown_Release (mem : Nat → Option Nat) (refCount : Nat) (errno : Nat) :
    GoOutcome (Nat × Nat) :=
  let ret := refCount - 1
  if errno ≠ 0 then .goError "IUnknown Release dispatch error"
  else
    match mem ret with
    | none => .fault
    | some c => .ok (c, ret)

/-- One call into a native procedure: the module it was resolved from,
the exported name handed to MustFindProc, and the argument words. -/
structure NativeCall where
  dll : String
  proc : String
  args : List Nat
deriving DecidableEq, Repr

/-- `SafeArrayLock` from safearray.go, run against a procedure table
`procs` mapping an exported name and argument words to the call's
(return value, dispatch code): the source resolves the name
"SafeArrayCreate" from OleAut32.dll and calls it with the array's
address as the only argument.  The result pairs the trace of native
calls made with the wrapper's returned value. -/
def SafeArrayLockRun (procs : String → List Nat → Nat × Nat) (psaAddr : Nat) :
    List NativeCall × Except GoErr Unit :=
  let r := procs "SafeArrayCreate" [psaAddr]
  let trace : List NativeCall :=
    [{ dll := "OleAut32.dll", proc := "SafeArrayCreate", args := [psaAddr] }]
  (trace,
    if r.2 ≠ 0 then .error (.dispatch r.2)
    else if r.1 ≠ 0 then .error (.hresult r.1)
    else .ok ())

/-- One argument word of a COM vtable call as written in the source:
the object handle's own address, the address of some named local
variable, a named value passed through, or a literal zero / nil. -/
inductive ComArg where
  | objAddr
  | addrOf (name : String)
  | value (name : String)
  | nullArg
deriving DecidableEq, Repr

/-- The COM method wrappers of icorruntimehost.go, appdomain.go,
iunknown.go and assembly.go: every Go method that performs a SyscallN
on a vtable slot. -/
inductive ComWrapper where
  | hostQueryInterface
  | hostAddRef
  | hostRelease
  | hostStart
  | hostGetDefaultDomain
  | hostCreateDomain
  | hostEnumDomains
  | hostNextDomain
  | hostCloseEnum
  | hostUnloadDomain
  | hostStop
  | domainQueryInterface
  | domainAddRef
  | domainRelease
  | domainGetHashCode
  | domainGetFriendlyName
  | domainLoad_3
  | domainToString
  | domainLoad_2
  | domainGetAssemblies
  | unknownQueryInterface
  | unknownAddRef
  | unknownRelease
  | assemblyQueryInterface
  | assemblyAddRef
  | assemblyRelease
  | assemblyGetEntryPoint
  | assemblyGetFullName
deriving DecidableEq, Repr

/-- The argument list each wrapper hands to SyscallN after the vtable
slot address, transcribed from the source call sites. -/
def comArgs : ComWrapper → List ComArg
  | .hostQueryInterface => [.objAddr, .addrOf "riid", .value "ppvObject"]
  | .hostAddRef => [.objAddr]
  | .hostRelease => [.objAddr]
  | .hostStart => [.objAddr]
  | .hostGetDefaultDomain => [.objAddr, .addrOf "IUnknown"]
  | .hostCreateDomain => [.objAddr, .value "pwzFriendlyName", .nullArg, .addrOf "iu"]
  | .hostEnumDomains => [.addrOf "hEnum"]
  | .hostNextDomain => [.objAddr, .value "hDomainEnum", .addrOf "iu"]
  | .hostCloseEnum => [.objAddr, .value "hDomainEnum"]
  | .hostUnloadDomain => [.objAddr, .value "appdomain"]
  | .hostStop => [.objAddr]
  | .domainQueryInterface => [.objAddr, .value "riid", .value "ppvObject"]
  | .domainAddRef => [.objAddr]
  | .domainRelease => [.objAddr]
  | .domainGetHashCode => [.objAddr, .nullArg]
  | .domainGetFriendlyName => [.objAddr, .addrOf "bstrFriendlyname", .nullArg]
  | .domainLoad_3 => [.objAddr, .value "rawAssembly", .addrOf "assembly"]
  | .domainToString => [.objAddr, .addrOf "pDomain"]
  | .domainLoad_2 => [.objAddr, .value "str", .addrOf "pAssembly"]
  | .domainGetAssemblies => [.objAddr, .addrOf "safeArray"]
  | .unknownQueryInterface => [.objAddr, .addrOf "riid", .value "ppvObject"]
  | .unknownAddRef => [.objAddr]
  | .unknownRelease => [.objAddr]
  | .assemblyQueryInterface => [.objAddr, .value "riid", .value "ppvObject"]
  | .assemblyAddRef => [.objAddr]
  | .assemblyRelease => [.objAddr]
  | .assemblyGetEntryPoint => [.objAddr, .addrOf "pRetVal"]
  | .assemblyGetFullName => [.objAddr, .addrOf "pRetValBSTR"]

/-- The stages of the Hosting State Machine, in protocol order. -/
inductive Stage where
  | uninitialized
  | runtimeSelected
  | hostStarted
  | domainReady
  | assemblyLoaded
  | entryResolved
  | executed
deriving DecidableEq, Repr

/-- Position of a stage in the protocol order. -/
def stageIdx : Stage → Nat
  | .uninitialized => 0
  | .runtimeSelected => 1
  | .hostStarted => 2
  | .domainReady => 3
  | .assemblyLoaded => 4
  | .entryResolved => 5
  | .executed => 6

/-- The named state-machine failure for an operation attempted before its
prerequisite stage completed. -/
inductive HostErr where
  | invalidState
deriving DecidableEq, Repr

/-- Modelled from the spec: the Hosting State Machine's stage guard (its
orchestration code is not among the sources under src/).  Sections 4.3,
7 and 8 of the spec state the stages in order and that invoking an
EntryResolved-stage operation (entry-point resolution) before the
AssemblyLoaded stage completes fails with InvalidState regardless of the
arguments supplied; on or after AssemblyLoaded the operation advances
the session to EntryResolved. -/
def invokeEntryStageOp (s : Stage) (args : List String) : Except HostErr Stage :=
  if stageIdx s < stageIdx .assemblyLoaded then .error .invalidState
  else .ok .entryResolved

/-- Written from the spec's words, for comparison with `Load_2`: return
the first entry (by position in domain order) whose case-folded name
starts with the case-folded search string; fail with the not-found
error when the scan completes with no match. -/
def specFirstMatch (assemblyString : String) (ns : List String) : Except GoErr Nat :=
  match ns.findIdx? (fun n => nameMatches assemblyString n) with
  | some k => .ok k
  | none => .error (.notFound assemblyString)

/-- Whether a Go outcome is a runtime fault. -/
def isFault {α : Type} : GoOutcome α → Bool
  | .fault => true
  | _ => false

/-! ## Helper lemmas -/

lemma range_map_getD (l : List Nat) :
    (List.range l.length).map (fun i => l.getD i 0) = l := by
  induction l with
  | nil => rfl
  | cons a t ih =>
    rw [List.length_cons, List.range_succ_eq_map, List.map_cons, List.map_map]
    simp only [Function.comp, List.getD_cons_zero, List.getD_cons_succ]
    exact congrArg (a :: ·) ih

lemma load_2_scan_eq (assemblyString : String) (ns : List String) (i : Nat) :
    load_2_scan assemblyString (ns.map Except.ok) i =
      match ns.findIdx? (fun n => nameMatches assemblyString n) i with
      | some k => .ok k
      | none => .error (.notFound assemblyString) := by
  induction ns generalizing i with
  | nil => rfl
  | cons n rest ih =>
    rw [List.map_cons, load_2_scan, List.findIdx?_cons]
    by_cases h : nameMatches assemblyString n
    · simp [h]
    · simp only [h, if_neg, Bool.false_eq_true, if_false, ite_false]
      exact ih (i + 1)

lemma rtlCopyMemory_exact (l : List Nat) :
    rtlCopyMemory (List.replicate l.length 0) l l.length = l := by
  unfold rtlCopyMemory
  rw [List.take_length, List.drop_eq_nil_of_le (by simp), List.append_nil]

/-! ## Claims -/

/-- Claim C1: for every non-empty byte sequence B, CreateSafeArray (its
native calls succeeding) builds a descriptor whose bound has element
count `B.length` and lower bound 0, whose backing storage holds exactly
the bytes of B, contiguous and unmodified, and reading elements over the
inclusive range `[lower, upper]` reproduces B in original order. -/
theorem createSafeArray_reproduces (B : List Nat) (hB : B ≠ []) :
    ∃ sa, CreateSafeArray 0 false 0 B = .ok sa
      ∧ sa.rgsabound.cElements = B.length
      ∧ sa.rgsabound.lLbound = 0
      ∧ sa.data = B
      ∧ readAll sa = B := by
  match B with
  | [] => exact absurd rfl hB
  | b :: bs =>
    refine ⟨_, rfl, rfl, rfl, ?_, ?_⟩
    · exact rtlCopyMemory_exact (b :: bs)
    · show (List.range (b :: bs).length).map
        (fun i => (rtlCopyMemory (List.replicate (b :: bs).length 0)
          (b :: bs) (b :: bs).length).getD i 0) = b :: bs
      rw [rtlCopyMemory_exact]
      exact range_map_getD (b :: bs)

/-- Claim C1 witness at the byte sequence [1, 2, 3]. -/
theorem createSafeArray_reproduces_witness :
    ([1, 2, 3] : List Nat) ≠ []
      ∧ ∃ sa, CreateSafeArray 0 false 0 [1, 2, 3] = .ok sa
          ∧ sa.rgsabound.cElements = ([1, 2, 3] : List Nat).length
          ∧ sa.rgsabound.lLbound = 0
          ∧ sa.data = [1, 2, 3]
          ∧ readAll sa = [1, 2, 3] :=
  ⟨by decide, createSafeArray_reproduces [1, 2, 3] (by decide)⟩

/-- Claim C2 (code bug): evaluated on an object whose shared reference
count is 1, in a process whose every readable 32-bit cell holds 7:
AddRef updates the shared count to 2 but delivers 7 to its caller — the
value read at the address numerically equal to the returned count —
and faults outright when that address is unmapped; Release behaves the
same way.  So addRef and release do not return the updated shared
reference count, contradicting the claim and the wrappers' own
`ULONG AddRef()` / `ULONG Release()` documentation. -/
theorem iunknown_refcount_bug :
    IUnknown_AddRef (fun _ => some 7) 1 0 = .ok (7, 2)
      ∧ (7 : Nat) ≠ 2
      ∧ IUnknown_AddRef (fun _ => none) 1 0 = .fault
      ∧ IUnknown_Release (fun _ => some 7) 2 0 = .ok (7, 1)
      ∧ (7 : Nat) ≠ 1 :=
  ⟨rfl, by decide, rfl, rfl, by decide⟩

/-- Claim C3 counterexample: Start, after a call that reports status 0
but dispatch code 3 — a code on no allowlist — returns success instead
of propagating the dispatch error, so the suppression in Start is a
blanket one, not an allowlist. -/
theorem start_swallows_any_dispatch :
    Start 0 3 = .ok () ∧ (3 : Nat) ≠ 0 ∧ (3 : Nat) ≠ 1150 :=
  ⟨rfl, by decide, by decide⟩

/-- Claim C3 (amended): after a status-0 call, Load_3 ignores only the
dispatch code 1150 and propagates every other non-zero dispatch code to
the caller unchanged; Start, by contrast, ignores every dispatch code —
its result depends only on the status word — and reports success
whenever the status is 0. -/
theorem dispatch_tolerance :
    (∀ errno : Nat, errno ≠ 0 → errno ≠ 1150 →
        Load_3 0 errno = .error (.dispatch errno))
      ∧ Load_3 0 1150 = .ok ()
      ∧ (∀ hr errno : Nat, Start hr errno = Start hr 0)
      ∧ (∀ errno : Nat, Start 0 errno = .ok ()) := by
  refine ⟨?_, rfl, fun hr errno => rfl, fun errno => rfl⟩
  intro errno h0 h1150
  simp [Load_3, h0, h1150]

/-- Claim C3 witness: the off-allowlist dispatch code 77 after status 0
is propagated by Load_3. -/
theorem dispatch_tolerance_witness :
    (77 : Nat) ≠ 0 ∧ (77 : Nat) ≠ 1150
      ∧ Load_3 0 77 = .error (.dispatch 77) :=
  ⟨by decide, by decide, dispatch_tolerance.1 77 (by decide) (by decide)⟩

/-- Claim C4: Load_2, scanning a list of assemblies whose name reads all
succeed, agrees with the spec's function returning the position of the
first entry whose case-folded qualified name starts with the case-folded
search string, and the not-found error when no entry matches; in
particular the search string "testdll" matches the first entry named
"TestDLL, Version=1.0.0.0, Culture=neutral, PublicKeyToken=3b1c". -/
theorem load_2_first_match :
    (∀ (ns : List String) (assemblyString : String),
        Load_2 (.ok (ns.map Except.ok)) assemblyString =
          specFirstMatch assemblyString ns)
      ∧ Load_2
          (.ok [Except.ok "TestDLL, Version=1.0.0.0, Culture=neutral, PublicKeyToken=3b1c"])
          "testdll" = .ok 0 := by
  constructor
  · intro ns s
    show load_2_scan s (ns.map Except.ok) 0 = specFirstMatch s ns
    rw [load_2_scan_eq]
    rfl
  · rfl

/-- Claim C5: every array CreateSafeArray builds is one-dimensional with
lower bound 0, has the requested element count, and its element byte
size is the one fixed by the VT_UI1 element kind (1 byte); the native
dimension query on such an array yields 1. -/
theorem createSafeArray_dims (B : List Nat) (sa : SafeArray)
    (h : CreateSafeArray 0 false 0 B = .ok sa) :
    sa.cDims = 1 ∧ sa.rgsabound.lLbound = 0 ∧ sa.rgsabound.cElements = B.length
      ∧ sa.cbElements = elemSize VT_UI1 ∧ sa.cbElements = 1
      ∧ SafeArrayGetDimModel sa = 1 := by
  cases B with
  | nil => simp [CreateSafeArray] at h
  | cons b bs =>
    simp only [CreateSafeArray] at h
    rw [if_neg (by decide), if_neg (by decide), if_neg (by decide)] at h
    cases h
    exact ⟨rfl, rfl, rfl, rfl, rfl, rfl⟩

/-- The descriptor CreateSafeArray builds for the bytes [4, 2]. -/
def saTwoBytes : SafeArray :=
  { cDims := 1
    fFeatures := 0
    cbElements := 1
    cLocks := 0
    data := [4, 2]
    rgsabound := { cElements := 2, lLbound := 0 } }

/-- Claim C5 witness at the byte sequence [4, 2]. -/
theorem createSafeArray_dims_witness :
    CreateSafeArray 0 false 0 [4, 2] = .ok saTwoBytes
      ∧ (saTwoBytes.cDims = 1 ∧ saTwoBytes.rgsabound.lLbound = 0
          ∧ saTwoBytes.rgsabound.cElements = ([4, 2] : List Nat).length
          ∧ saTwoBytes.cbElements = elemSize VT_UI1 ∧ saTwoBytes.cbElements = 1
          ∧ SafeArrayGetDimModel saTwoBytes = 1) :=
  ⟨by decide, createSafeArray_dims [4, 2] saTwoBytes (by decide)⟩

/-- Claim C6 counterexample: scanning two entries of which the first
entry's qualified-name read fails with HRESULT 5 and the second matches
the search string "xy", Load_2 succeeds with the second entry: the read
failure was silently dropped, neither surfaced to the caller nor its
code preserved anywhere in the result. -/
theorem load_2_drops_name_failure :
    Load_2 (.ok [Except.error (GoErr.hresult 5), Except.ok "xyz"]) "xy" = .ok 1 := by
  rfl

/-- Claim C6 (amended): in the string-returning ListAssemblies variant a
failing element read ends the scan and is surfaced to the immediate
caller unchanged, its originating code preserved and never retried; but
in Load_2's scan an entry whose qualified-name read fails is silently
skipped and the scan continues. -/
theorem name_failure_handling :
    (∀ (e : GoErr) (rest : List (Except GoErr String)),
        ListAssembliesStr 1 (Except.error e :: rest) = .error e)
      ∧ (∀ (e : GoErr) (rest : List (Except GoErr String)) (s : String) (i : Nat),
          load_2_scan s (Except.error e :: rest) i = load_2_scan s rest (i + 1)) :=
  ⟨fun e rest => rfl, fun e rest s i => rfl⟩

/-- Claim C7 (modelled from the spec): invoking the EntryResolved-stage
operation at any stage strictly before AssemblyLoaded fails with
InvalidState, regardless of the arguments supplied. -/
theorem entry_op_before_load_invalid (s : Stage) (args : List String)
    (h : stageIdx s < stageIdx .assemblyLoaded) :
    invokeEntryStageOp s args = .error .invalidState := by
  simp [invokeEntryStageOp, h]

/-- Claim C7 witness at the HostStarted stage with arbitrary arguments. -/
theorem entry_op_before_load_invalid_witness :
    stageIdx .hostStarted < stageIdx .assemblyLoaded
      ∧ invokeEntryStageOp .hostStarted ["TestDLL.HelloWorld", "SayHello"] =
          .error .invalidState :=
  ⟨by decide,
    entry_op_before_load_invalid .hostStarted ["TestDLL.HelloWorld", "SayHello"] (by decide)⟩

/-- Claim C8: CreateSafeArray on the empty byte sequence faults — the
source unconditionally takes `&rawBytes[0]`, an out-of-range index on an
empty slice — rather than returning a zero-length descriptor or an
error; on any non-empty input that element-0 access is in bounds and no
outcome is a fault, whatever the native calls report. -/
theorem createSafeArray_empty_faults :
    (∀ copyErrno : Nat, CreateSafeArray 0 false copyErrno [] = .fault)
      ∧ (∀ (createErrno copyErrno : Nat) (createRetNull : Bool) (b : Nat) (bs : List Nat),
          isFault (CreateSafeArray createErrno createRetNull copyErrno (b :: bs)) = false) := by
  constructor
  · intro copyErrno
    rfl
  · intro ce cn co b bs
    unfold CreateSafeArray
    split_ifs <;> rfl

/-- Claim C9: SafeArrayLock's entire native-call trace is one call to
the OleAut32 export named "SafeArrayCreate" on the array's address, for
every procedure table and every input array; that name differs from
"SafeArrayLock", so the locking primitive is never invoked. -/
theorem safeArrayLock_wrong_proc :
    (∀ (procs : String → List Nat → Nat × Nat) (psaAddr : Nat),
        (SafeArrayLockRun procs psaAddr).1 =
          [{ dll := "OleAut32.dll", proc := "SafeArrayCreate", args := [psaAddr] }])
      ∧ ("SafeArrayCreate" : String) ≠ "SafeArrayLock"
      ∧ (∀ (procs : String → List Nat → Nat × Nat) (psaAddr : Nat),
          ((SafeArrayLockRun procs psaAddr).1.all
            (fun c => c.proc != "SafeArrayLock")) = true) :=
  ⟨fun procs psaAddr => rfl, by decide, fun procs psaAddr => by rfl⟩

/-- Claim C10: every COM method wrapper hands the object handle's
address to the native call as the first argument — except EnumDomains,
whose argument list is just the address of the output enumerator handle
and omits the object's address entirely. -/
theorem comArgs_objAddr_first (w : ComWrapper) (h : w ≠ .hostEnumDomains) :
    (comArgs w).head? = some .objAddr
      ∧ comArgs .hostEnumDomains = [.addrOf "hEnum"]
      ∧ ComArg.objAddr ∉ comArgs .hostEnumDomains := by
  refine ⟨?_, rfl, by decide⟩
  cases w <;> first | rfl | exact absurd rfl h

/-- Claim C10 witness at the Start wrapper. -/
theorem comArgs_objAddr_first_witness :
    ComWrapper.hostStart ≠ ComWrapper.hostEnumDomains
      ∧ ((comArgs .hostStart).head? = some .objAddr
          ∧ comArgs .hostEnumDomains = [.addrOf "hEnum"]
          ∧ ComArg.objAddr ∉ comArgs .hostEnumDomains) :=
  ⟨by decide, comArgs_objAddr_first .hostStart (by decide)⟩

end GoClr
